import Mathlib

/-!
Verification development for the fraud-detection pipeline script
(`pipeline/7_get_data_train_upload.py`).

The script defines three containerized steps (data fetcher, model trainer,
model uploader), a pipeline definition wiring them into a linear DAG, and a
`__main__` submission routine that authenticates to a Kubeflow endpoint and
submits the pipeline as a run.  Below, each piece is shallowly embedded:
straight-line Python becomes explicit Lean data flow, environment access
becomes a lookup function `String → Option String`, filesystem and network
effects become entries of explicit action traces, and numeric data is `ℚ`.
-/

namespace FraudDetection

/-! ## Model uploader (`upload_model`)

The uploader reads six environment variables with the non-throwing
`os.environ.get`, builds a boto3 session/resource/bucket (no validation of
the values), prints a message, and calls `bucket.upload_file`.  The embedding
records each of those operations as an action, in program order. -/

/-- One operation performed by the `upload_model` step, in program order.
`createSession`, `createResource` and `bucketRef` are the local boto3 object
constructions; `uploadFile` is the storage-service upload call. -/
inductive UploadAction where
  | createSession (accessKey secretKey : Option String)
  | createResource (endpointUrl regionName : Option String)
  | bucketRef (bucketName : Option String)
  | printMsg (s : String)
  | uploadFile (modelPath : String) (bucketName s3Key : Option String)
  deriving DecidableEq, Repr

/-- Render an optional string as Python string interpolation of a possibly
`None` value does. -/
def pyShow : Option String → String
  | none => "None"
  | some s => s

/-- Embedding of the `upload_model` component body: every environment
variable is read with `os.environ.get` (which yields `none` when absent and
never raises), and the step proceeds unconditionally through session,
resource and bucket construction to the `upload_file` call.  The returned
trace is the full list of operations the step performs; the step itself has
no failure exit of its own. -/
def upload_model (env : String → Option String) (input_model_path : String) :
    List UploadAction :=
  let aws_access_key_id := env "AWS_ACCESS_KEY_ID"
  let aws_secret_access_key := env "AWS_SECRET_ACCESS_KEY"
  let endpoint_url := env "AWS_S3_ENDPOINT"
  let region_name := env "AWS_DEFAULT_REGION"
  let bucket_name := env "AWS_S3_BUCKET"
  let s3_key := env "S3_KEY"
  [UploadAction.createSession aws_access_key_id aws_secret_access_key,
   UploadAction.createResource endpoint_url region_name,
   UploadAction.bucketRef bucket_name,
   UploadAction.printMsg ("Uploading " ++ pyShow s3_key),
   UploadAction.uploadFile input_model_path bucket_name s3_key]

/-- The six credential environment variables the uploader reads. -/
def credentialVars : List String :=
  ["AWS_ACCESS_KEY_ID", "AWS_SECRET_ACCESS_KEY", "AWS_S3_ENDPOINT",
   "AWS_DEFAULT_REGION", "AWS_S3_BUCKET", "S3_KEY"]

/-! ## Pipeline definition (`pipeline`) -/

/-- A reference to a named output artifact of a named task. -/
structure ArtifactRef where
  producerTask : String
  outputName : String
  deriving DecidableEq, Repr

/-- A secret-to-environment mapping attached to a task
(`kubernetes.use_secret_as_env`). -/
structure SecretEnvMapping where
  secretName : String
  secretKeyToEnv : List (String × String)
  deriving DecidableEq, Repr

/-- One task of the pipeline definition: the component it runs, its input
artifact bindings, its directly set environment variables, and its secret
mappings. -/
structure TaskDef where
  name : String
  inputs : List (String × ArtifactRef)
  envVars : List (String × String)
  secretMappings : List SecretEnvMapping
  deriving DecidableEq, Repr

/-- Embedding of the `pipeline()` definition body: `get_data` has no inputs,
`train_model` consumes `get_data`'s two outputs, `upload_model` consumes
`train_model`'s output, gets `S3_KEY` set directly, and gets the five
credential variables mapped from the `frauddetection-storage` secret. -/
def pipelineTasks : List TaskDef :=
  let train_data_csv_file : ArtifactRef := ⟨"get_data", "train_data_output_path"⟩
  let validate_data_csv_file : ArtifactRef := ⟨"get_data", "validate_data_output_path"⟩
  let onnx_file : ArtifactRef := ⟨"train_model", "model_output_path"⟩
  [{ name := "get_data", inputs := [], envVars := [], secretMappings := [] },
   { name := "train_model",
     inputs := [("train_data_input_path", train_data_csv_file),
                ("validate_data_input_path", validate_data_csv_file)],
     envVars := [], secretMappings := [] },
   { name := "upload_model",
     inputs := [("input_model_path", onnx_file)],
     envVars := [("S3_KEY", "models/fraud/1/model.onnx")],
     secretMappings :=
       [{ secretName := "frauddetection-storage",
          secretKeyToEnv :=
            [("AWS_ACCESS_KEY_ID", "AWS_ACCESS_KEY_ID"),
             ("AWS_SECRET_ACCESS_KEY", "AWS_SECRET_ACCESS_KEY"),
             ("AWS_DEFAULT_REGION", "AWS_DEFAULT_REGION"),
             ("AWS_S3_BUCKET", "AWS_S3_BUCKET"),
             ("AWS_S3_ENDPOINT", "AWS_S3_ENDPOINT")] }] }]

/-- The artifact-dependency edges of the pipeline: one pair
(consumer task, producer task) per input artifact binding. -/
def pipelineDeps : List (String × String) :=
  pipelineTasks.flatMap fun t => t.inputs.map fun b => (t.name, b.2.producerTask)

/-! ## Submission routine (`__main__`)

The `__main__` block reads `KUBEFLOW_ENDPOINT` with the throwing
`os.environ[...]` lookup, conditionally reads the service-account token file,
chooses an optional CA certificate, prints diagnostics (the
`print(bearer_token)` statement raises a `NameError` when the token file was
absent, since `bearer_token` was never assigned), constructs the client, and
submits the run.  Its external state — the environment, whether the two
service-account files exist, and the token file's content — is a `MainEnv`;
its effects are a `MainAction` trace, and the exceptional exits are errors. -/

/-- One observable operation of the submission routine, in program order. -/
inductive MainAction where
  | readTokenFile
  | printMsg (s : String)
  | printOpt (s : Option String)
  | createClient (host : String) (existingToken : String) (sslCaCert : Option String)
  | submitRun (experimentName : String)
  deriving DecidableEq, Repr

/-- The exceptions the submission routine can raise in the embedded fragment:
a key-lookup error from `os.environ[...]` and a name error from reading a
never-assigned local variable. -/
inductive MainError where
  | keyError (key : String)
  | nameError (name : String)
  deriving DecidableEq, Repr

/-- External state the submission routine depends on. -/
structure MainEnv where
  env : String → Option String
  tokenFileExists : Bool
  tokenFileContent : String
  caFileExists : Bool

/-- Path of the service-account token file read by the submission routine. -/
def sa_token_path : String := "/run/secrets/kubernetes.io/serviceaccount/token"

/-- Path of the service-account CA certificate file. -/
def sa_ca_cert : String := "/run/secrets/kubernetes.io/serviceaccount/service-ca.crt"

/-- `a` occurs as a contiguous substring of `b` (Python's `a in b` on strings),
computed on the underlying character lists. -/
def strContainsSub (a b : String) : Bool :=
  (b.data.tails.filter fun t => a.data.isPrefixOf t).length != 0

/-- Python's `str.rstrip()`: drop trailing whitespace. -/
def rstrip (s : String) : String :=
  String.mk (s.data.reverse.dropWhile Char.isWhitespace).reverse

/-- The CA-certificate choice of the submission routine:
`sa_ca_cert` when the file exists and the endpoint string contains `"svc"`,
otherwise no certificate. -/
def sslCaCertChoice (caFileExists : Bool) (kubeflow_endpoint : String) :
    Option String :=
  if caFileExists && strContainsSub "svc" kubeflow_endpoint then some sa_ca_cert
  else none

/-- Embedding of the `__main__` block.  Mirrors the statement order of the
source: environment lookup (raising `KeyError` when absent, with no effect
performed), the conditional token-file read, the CA-certificate choice and
its diagnostic print, the endpoint print, the `print(bearer_token)` statement
(raising `NameError` when the token file did not exist), the remaining
prints, client construction, and run submission. -/
def main_routine (m : MainEnv) : List MainAction × Except MainError Unit :=
  match m.env "KUBEFLOW_ENDPOINT" with
  | none => ([], Except.error (MainError.keyError "KUBEFLOW_ENDPOINT"))
  | some kubeflow_endpoint =>
    let ssl_ca_cert := sslCaCertChoice m.caFileExists kubeflow_endpoint
    let sslDiag : List MainAction :=
      if ssl_ca_cert = none then [MainAction.printMsg "there is no ssl_ca_cert"] else []
    if m.tokenFileExists then
      let bearer_token := rstrip m.tokenFileContent
      ([MainAction.printMsg ("Connecting to kfp: " ++ kubeflow_endpoint),
        MainAction.readTokenFile]
        ++ sslDiag
        ++ [MainAction.printMsg kubeflow_endpoint,
            MainAction.printMsg bearer_token,
            MainAction.printOpt ssl_ca_cert,
            MainAction.createClient kubeflow_endpoint bearer_token ssl_ca_cert,
            MainAction.submitRun "fraud-detection"],
       Except.ok ())
    else
      ([MainAction.printMsg ("Connecting to kfp: " ++ kubeflow_endpoint)]
        ++ sslDiag
        ++ [MainAction.printMsg kubeflow_endpoint],
       Except.error (MainError.nameError "bearer_token"))

/-! ## Model trainer (`train_model`)

A parsed CSV file is a list of rows, each row a list of rational values
(`pandas.read_csv` on the 8-column schema).  `DataFrame.iloc[:, idxs]`
becomes per-row column selection.  `StandardScaler` stores per-feature mean
and (biased) variance; its `transform` divides the centred value by the
square root of the variance — the numeric square root lives in the external
numeric library, so the embedding is parametrized by it.  The trainer body
is straight-line; `train_model` returns a record of every intermediate it
computes, plus the list of matrices the scaler was ever fitted on. -/

/-- The fixed feature column indices of the trainer. -/
def feature_indexes : List ℕ := [1, 2, 4, 5, 6]

/-- The fixed label column index list of the trainer. -/
def label_indexes : List ℕ := [7]

/-- `DataFrame.iloc[:, idxs]` on one row: pick the listed column positions. -/
def selectCols (idxs : List ℕ) (row : List ℚ) : List ℚ :=
  idxs.map fun i => row.getD i 0

/-- Fitted `StandardScaler` state: per-feature mean and biased variance. -/
structure ScalerState where
  mean_ : List ℚ
  var_ : List ℚ
  deriving DecidableEq, Repr

/-- Mean of column `j` of matrix `X` (0 on an empty matrix, as a convention;
the trainer only fits on nonempty data). -/
def colMean (X : List (List ℚ)) (j : ℕ) : ℚ :=
  (X.map fun r => r.getD j 0).sum / X.length

/-- Biased variance of column `j` of matrix `X`. -/
def colVar (X : List (List ℚ)) (j : ℕ) : ℚ :=
  (X.map fun r => (r.getD j 0 - colMean X j) ^ 2).sum / X.length

/-- Number of feature columns of a matrix (width of its first row). -/
def nCols (X : List (List ℚ)) : ℕ := (X.headD []).length

/-- `StandardScaler.fit`: record per-feature mean and variance of `X`. -/
def fitScaler (X : List (List ℚ)) : ScalerState :=
  { mean_ := (List.range (nCols X)).map (colMean X),
    var_ := (List.range (nCols X)).map (colVar X) }

/-- `StandardScaler.transform` with fitted state `s`: centre each feature by
the stored mean and divide by the stored standard deviation
(`sqrt` of the stored variance, supplied by the numeric library). -/
def transformScaler (sqrt : ℚ → ℚ) (s : ScalerState) (X : List (List ℚ)) :
    List (List ℚ) :=
  X.map fun r =>
    (List.range s.mean_.length).map fun j =>
      (r.getD j 0 - s.mean_.getD j 0) / sqrt (s.var_.getD j 0)

/-- `numpy.unique` on a label list: the distinct values in ascending order. -/
def npUnique (l : List ℚ) : List ℚ :=
  List.insertionSort (fun a b => a ≤ b) l.dedup

/-- `sklearn.utils.class_weight.compute_class_weight('balanced', classes, y)`
with `classes = numpy.unique y`: the weight of the `i`-th class `c` is
`n_samples / (n_classes * count c)`, returned in class order. -/
def compute_class_weight_balanced (y : List ℚ) : List ℚ :=
  let classes := npUnique y
  classes.map fun c => (y.length : ℚ) / (classes.length * y.count c)

/-- A Keras layer, as added by the trainer's `model.add` calls. -/
inductive Layer where
  | dense (units : ℕ) (activation : Option String)
  | dropout (rate : ℚ)
  | batchNormalization
  | activation (name : String)
  deriving DecidableEq, Repr

/-- A Keras `Sequential` model under construction: the layer stack and the
compile-time loss/optimizer settings. -/
structure SeqModel where
  layers : List Layer
  optimizer : Option String
  loss : Option String
  deriving DecidableEq, Repr

/-- The empty `Sequential()` model. -/
def SeqModel.empty : SeqModel := { layers := [], optimizer := none, loss := none }

/-- `model.add(layer)`. -/
def SeqModel.add (m : SeqModel) (l : Layer) : SeqModel :=
  { m with layers := m.layers ++ [l] }

/-- `model.compile(optimizer=..., loss=...)`. -/
def SeqModel.compile (m : SeqModel) (opt loss : String) : SeqModel :=
  { m with optimizer := some opt, loss := some loss }

/-- The classifier the trainer builds, by the exact `model.add` sequence of
the source followed by the `model.compile` call. -/
def buildModel : SeqModel :=
  (((((((((((SeqModel.empty.add (Layer.dense 32 (some "relu"))).add
    (Layer.dropout (1 / 5))).add
    (Layer.dense 32 none)).add
    Layer.batchNormalization).add
    (Layer.activation "relu")).add
    (Layer.dropout (1 / 5))).add
    (Layer.dense 32 none)).add
    Layer.batchNormalization).add
    (Layer.activation "relu")).add
    (Layer.dropout (1 / 5))).add
    (Layer.dense 1 (some "sigmoid"))).compile "adam" "binary_crossentropy"

/-- Everything the `train_model` component computes, in source order, plus
an explicit log of every matrix the scaler is fitted on. -/
structure TrainRun where
  y_train : List (List ℚ)
  X_train : List (List ℚ)
  y_val : List (List ℚ)
  X_val : List (List ℚ)
  scaler : ScalerState
  scalerFitLog : List (List (List ℚ))
  X_train_scaled : List (List ℚ)
  class_weights : List ℚ
  model : SeqModel
  epochs : ℕ
  fitValidationX : List (List ℚ)
  fitValidationY : List (List ℚ)

/-- Embedding of the `train_model` component body on already-parsed CSV data:
slice labels then features from each file, fit the scaler once on the
training features (`fit_transform`), compute balanced class weights from the
ravelled training labels, build and compile the classifier, and call
`model.fit` for 2 epochs with validation data transformed by the already
fitted scaler (`scaler.transform(X_val.values)`). -/
def train_model (sqrt : ℚ → ℚ) (train_csv validate_csv : List (List ℚ)) :
    TrainRun :=
  let y_train := train_csv.map (selectCols label_indexes)
  let X_train := train_csv.map (selectCols feature_indexes)
  let y_val := validate_csv.map (selectCols label_indexes)
  let X_val := validate_csv.map (selectCols feature_indexes)
  let scaler := fitScaler X_train
  let X_train_scaled := transformScaler sqrt scaler X_train
  let class_weights := compute_class_weight_balanced y_train.flatten
  { y_train := y_train, X_train := X_train, y_val := y_val, X_val := X_val,
    scaler := scaler,
    scalerFitLog := [X_train],
    X_train_scaled := X_train_scaled,
    class_weights := class_weights,
    model := buildModel,
    epochs := 2,
    fitValidationX := transformScaler sqrt scaler X_val,
    fitValidationY := y_val }

/-! ## Theorems -/

/-- The all-absent environment: no variable is set. -/
def emptyEnv : String → Option String := fun _ => none

/-- Claim C1 counterexample: with every one of the six credential
environment variables absent (the all-absent environment), the upload step
does not fail before the storage call — its execution trace still runs
through session, resource and bucket construction and ends by invoking the
storage upload call with `None` in place of every value.  This refutes the
claim that a missing credential variable makes the step fail before any
network call to the storage service is attempted. -/
theorem upload_missing_creds_still_uploads :
    upload_model emptyEnv "model.onnx" =
      [UploadAction.createSession none none,
       UploadAction.createResource none none,
       UploadAction.bucketRef none,
       UploadAction.printMsg "Uploading None",
       UploadAction.uploadFile "model.onnx" none none] := rfl

/-- Claim C1 (amended): for every environment — in particular for every
environment missing one or more of the six credential variables — the upload
step reads each variable with the non-throwing `os.environ.get` (absent
variables become `None`), performs no validation of its own, and
unconditionally proceeds through session, resource and bucket construction
to invoke the storage upload call with the possibly-`None` values; the step
itself has no failure exit before that call. -/
theorem upload_model_trace (env : String → Option String) (p : String) :
    upload_model env p =
      [UploadAction.createSession (env "AWS_ACCESS_KEY_ID") (env "AWS_SECRET_ACCESS_KEY"),
       UploadAction.createResource (env "AWS_S3_ENDPOINT") (env "AWS_DEFAULT_REGION"),
       UploadAction.bucketRef (env "AWS_S3_BUCKET"),
       UploadAction.printMsg ("Uploading " ++ pyShow (env "S3_KEY")),
       UploadAction.uploadFile p (env "AWS_S3_BUCKET") (env "S3_KEY")] := rfl

/-- The placeholder task used for indexed access into the task list. -/
def emptyTask : TaskDef :=
  { name := "", inputs := [], envVars := [], secretMappings := [] }

/-- The uploader task of the pipeline definition (third task). -/
def uploadTask : TaskDef := pipelineTasks.getD 2 emptyTask

/-- Claim C8: the pipeline definition sets the uploader step's `S3_KEY`
environment variable to the fixed value `models/fraud/1/model.onnx`, and maps
exactly the five credential variables from the secret store entry
`frauddetection-storage`, each secret key to the environment variable of the
same name. -/
theorem upload_task_env_and_secret :
    uploadTask.name = "upload_model"
    ∧ uploadTask.envVars = [("S3_KEY", "models/fraud/1/model.onnx")]
    ∧ uploadTask.secretMappings.map SecretEnvMapping.secretName =
        ["frauddetection-storage"]
    ∧ uploadTask.secretMappings.map (fun sm => sm.secretKeyToEnv.map Prod.fst) =
        [["AWS_ACCESS_KEY_ID", "AWS_SECRET_ACCESS_KEY", "AWS_DEFAULT_REGION",
          "AWS_S3_BUCKET", "AWS_S3_ENDPOINT"]]
    ∧ uploadTask.secretMappings.map (fun sm => sm.secretKeyToEnv.map Prod.snd) =
        uploadTask.secretMappings.map (fun sm => sm.secretKeyToEnv.map Prod.fst) := by
  refine ⟨rfl, rfl, rfl, rfl, rfl⟩

/-- Claim C9: the pipeline is a strictly linear 3-step chain — the fetcher
has no inputs, the trainer's two inputs are exactly the fetcher's two output
artifacts, the uploader's single input is exactly the trainer's output
artifact, and the set of artifact-dependency edges is exactly
trainer-on-fetcher and uploader-on-trainer. -/
theorem pipeline_linear_chain :
    pipelineTasks.map TaskDef.name = ["get_data", "train_model", "upload_model"]
    ∧ (pipelineTasks.getD 0 emptyTask).inputs = []
    ∧ (pipelineTasks.getD 1 emptyTask).inputs =
        [("train_data_input_path",
          { producerTask := "get_data", outputName := "train_data_output_path" }),
         ("validate_data_input_path",
          { producerTask := "get_data", outputName := "validate_data_output_path" })]
    ∧ (pipelineTasks.getD 2 emptyTask).inputs =
        [("input_model_path",
          { producerTask := "train_model", outputName := "model_output_path" })]
    ∧ pipelineDeps.dedup =
        [("train_model", "get_data"), ("upload_model", "train_model")] := by
  refine ⟨rfl, rfl, rfl, rfl, by decide⟩

/-- Evaluation of the submission routine when the endpoint variable is
absent: empty trace, key-lookup error. -/
lemma main_routine_none (m : MainEnv)
    (h : m.env "KUBEFLOW_ENDPOINT" = none) :
    main_routine m = ([], Except.error (MainError.keyError "KUBEFLOW_ENDPOINT")) := by
  unfold main_routine
  rw [h]

/-- Claim C10: when `KUBEFLOW_ENDPOINT` is absent from the environment, the
submission routine stops at its very first statement with a key-lookup
error: its effect trace is empty, so the token file is never read, no client
is constructed, and no run is submitted. -/
theorem missing_endpoint_keyerror (m : MainEnv)
    (h : m.env "KUBEFLOW_ENDPOINT" = none) :
    main_routine m = ([], Except.error (MainError.keyError "KUBEFLOW_ENDPOINT")) :=
  main_routine_none m h

/-- Environment for the C10 witness: nothing is set. -/
def mainEnvNoEndpoint : MainEnv :=
  { env := fun _ => none, tokenFileExists := true,
    tokenFileContent := "token", caFileExists := true }

/-- Witness for the C10 theorem at a concrete environment. -/
theorem missing_endpoint_keyerror_witness :
    mainEnvNoEndpoint.env "KUBEFLOW_ENDPOINT" = none
    ∧ main_routine mainEnvNoEndpoint =
        ([], Except.error (MainError.keyError "KUBEFLOW_ENDPOINT")) :=
  ⟨rfl, missing_endpoint_keyerror mainEnvNoEndpoint rfl⟩

/-- Evaluation of the submission routine when the endpoint variable is set
and the token file exists: the full trace ends with client construction and
run submission, and the routine succeeds. -/
lemma main_routine_some_token (m : MainEnv) (ep : String)
    (hK : m.env "KUBEFLOW_ENDPOINT" = some ep) (ht : m.tokenFileExists = true) :
    main_routine m =
      ([MainAction.printMsg ("Connecting to kfp: " ++ ep), MainAction.readTokenFile]
        ++ (if sslCaCertChoice m.caFileExists ep = none
            then [MainAction.printMsg "there is no ssl_ca_cert"] else [])
        ++ [MainAction.printMsg ep,
            MainAction.printMsg (rstrip m.tokenFileContent),
            MainAction.printOpt (sslCaCertChoice m.caFileExists ep),
            MainAction.createClient ep (rstrip m.tokenFileContent)
              (sslCaCertChoice m.caFileExists ep),
            MainAction.submitRun "fraud-detection"],
       Except.ok ()) := by
  unfold main_routine
  rw [hK, ht]
  rfl

/-- Evaluation of the submission routine when the endpoint variable is set
but the token file does not exist: only diagnostics are printed and the
routine ends in the `NameError` raised by `print(bearer_token)`. -/
lemma main_routine_some_no_token (m : MainEnv) (ep : String)
    (hK : m.env "KUBEFLOW_ENDPOINT" = some ep) (ht : m.tokenFileExists = false) :
    main_routine m =
      ([MainAction.printMsg ("Connecting to kfp: " ++ ep)]
        ++ (if sslCaCertChoice m.caFileExists ep = none
            then [MainAction.printMsg "there is no ssl_ca_cert"] else [])
        ++ [MainAction.printMsg ep],
       Except.error (MainError.nameError "bearer_token")) := by
  unfold main_routine
  rw [hK, ht]
  rfl

/-- Claim C7: when the service-account token file does not exist, the
submission routine ends in a raised exception, and its trace contains no
run submission (and no client construction either): the `bearer_token`
local is never assigned, so the later `print(bearer_token)` raises a
`NameError` before the client is built. -/
theorem missing_token_raises (m : MainEnv) (h : m.tokenFileExists = false) :
    (∃ e, (main_routine m).2 = Except.error e)
    ∧ (∀ s, MainAction.submitRun s ∉ (main_routine m).1)
    ∧ (∀ h' t' ssl, MainAction.createClient h' t' ssl ∉ (main_routine m).1) := by
  cases hK : m.env "KUBEFLOW_ENDPOINT" with
  | none =>
    rw [main_routine_none m hK]
    exact ⟨⟨MainError.keyError "KUBEFLOW_ENDPOINT", rfl⟩,
      fun s hs => by simp at hs, fun h' t' ssl hs => by simp at hs⟩
  | some ep =>
    rw [main_routine_some_no_token m ep hK h]
    refine ⟨⟨MainError.nameError "bearer_token", rfl⟩, ?_, ?_⟩
    · intro s hs
      by_cases hd : sslCaCertChoice m.caFileExists ep = none <;> simp [hd] at hs
    · intro h' t' ssl hs
      by_cases hd : sslCaCertChoice m.caFileExists ep = none <;> simp [hd] at hs


/-- The CA-certificate choice is `some sa_ca_cert` exactly when the file
exists and the endpoint contains `"svc"`, and is `none` otherwise. -/
lemma sslCaCertChoice_spec (ca : Bool) (ep : String) :
    (sslCaCertChoice ca ep = some sa_ca_cert ↔
      (ca = true ∧ strContainsSub "svc" ep = true))
    ∧ (sslCaCertChoice ca ep = some sa_ca_cert ∨ sslCaCertChoice ca ep = none) := by
  unfold sslCaCertChoice
  by_cases hb : (ca && strContainsSub "svc" ep) = true
  · rw [if_pos hb]
    rw [Bool.and_eq_true] at hb
    exact ⟨⟨fun _ => hb, fun _ => rfl⟩, Or.inl rfl⟩
  · rw [if_neg hb]
    rw [Bool.and_eq_true] at hb
    constructor
    · constructor
      · intro hcontra; exact absurd hcontra (by simp)
      · intro hcc; exact absurd hcc hb
    · exact Or.inr rfl

/-- Claim C6: whenever the submission routine constructs the client, the CA
certificate passed to it is the service-account CA file exactly when that
file exists and the endpoint string contains the substring `"svc"`; in every
other case the client is created with no CA certificate. -/
theorem client_ca_cert_iff (m : MainEnv) (h tok : String) (ssl : Option String)
    (hc : MainAction.createClient h tok ssl ∈ (main_routine m).1) :
    (ssl = some sa_ca_cert ↔
      (m.caFileExists = true ∧ strContainsSub "svc" h = true))
    ∧ (ssl = some sa_ca_cert ∨ ssl = none) := by
  cases hK : m.env "KUBEFLOW_ENDPOINT" with
  | none =>
    rw [main_routine_none m hK] at hc
    simp at hc
  | some ep =>
    cases ht : m.tokenFileExists with
    | true =>
      rw [main_routine_some_token m ep hK ht] at hc
      have hcc : h = ep ∧ ssl = sslCaCertChoice m.caFileExists ep := by
        by_cases hd : sslCaCertChoice m.caFileExists ep = none
        · simp [hd] at hc
          exact ⟨hc.1, hc.2.2.trans hd.symm⟩
        · simp [hd] at hc
          exact ⟨hc.1, hc.2.2⟩
      rcases hcc with ⟨rfl, rfl⟩
      exact sslCaCertChoice_spec m.caFileExists h
    | false =>
      rw [main_routine_some_no_token m ep hK ht] at hc
      by_cases hd : sslCaCertChoice m.caFileExists ep = none <;> simp [hd] at hc

/-- Environment for the C6 witness: endpoint set (containing `"svc"`), token
file present, CA file absent. -/
def mainEnvCaAbsent : MainEnv :=
  { env := fun _ => some "https://ds-pipeline.svc:8443",
    tokenFileExists := true, tokenFileContent := "token",
    caFileExists := false }

/-- Witness for the C6 theorem: at a concrete execution whose endpoint
contains `"svc"` but whose CA file is absent, the client in the trace
carries no CA certificate, and the theorem's equivalence holds there. -/
theorem client_ca_cert_iff_witness :
    (MainAction.createClient "https://ds-pipeline.svc:8443" "token" none
        ∈ (main_routine mainEnvCaAbsent).1)
    ∧ ((none = some sa_ca_cert ↔
          (mainEnvCaAbsent.caFileExists = true
            ∧ strContainsSub "svc" "https://ds-pipeline.svc:8443" = true))
        ∧ ((none : Option String) = some sa_ca_cert ∨ (none : Option String) = none)) :=
  ⟨by decide,
   client_ca_cert_iff mainEnvCaAbsent "https://ds-pipeline.svc:8443" "token" none
     (by decide)⟩

/-- Environment for the C7 witness: endpoint set, token file absent. -/
def mainEnvNoToken : MainEnv :=
  { env := fun _ => some "https://kfp.example.com:443",
    tokenFileExists := false, tokenFileContent := "", caFileExists := true }

/-- Witness for the C7 theorem at a concrete environment whose token file is
absent: the routine errors and neither submits a run nor builds a client. -/
theorem missing_token_raises_witness :
    mainEnvNoToken.tokenFileExists = false
    ∧ ((∃ e, (main_routine mainEnvNoToken).2 = Except.error e)
        ∧ (∀ s, MainAction.submitRun s ∉ (main_routine mainEnvNoToken).1)
        ∧ (∀ h' t' ssl,
            MainAction.createClient h' t' ssl ∉ (main_routine mainEnvNoToken).1)) :=
  ⟨rfl, missing_token_raises mainEnvNoToken rfl⟩

/-- Claim C2: in every run of the trainer, the scaler-fit log contains
exactly one entry — the training feature matrix — so the scaler's fitted
parameters (per-feature mean and variance) are derived exclusively from
training features, and the validation features passed to `model.fit` are
transformed with that same fitted scaler, never with a scaler refit on
validation data. -/
theorem scaler_fit_on_train_only (sq : ℚ → ℚ) (tc vc : List (List ℚ)) :
    (train_model sq tc vc).scalerFitLog = [(train_model sq tc vc).X_train]
    ∧ (train_model sq tc vc).scaler = fitScaler (train_model sq tc vc).X_train
    ∧ (train_model sq tc vc).scaler.mean_ =
        (List.range (nCols (train_model sq tc vc).X_train)).map
          (colMean (train_model sq tc vc).X_train)
    ∧ (train_model sq tc vc).scaler.var_ =
        (List.range (nCols (train_model sq tc vc).X_train)).map
          (colVar (train_model sq tc vc).X_train)
    ∧ (train_model sq tc vc).fitValidationX =
        transformScaler sq (train_model sq tc vc).scaler (train_model sq tc vc).X_val :=
  ⟨rfl, rfl, rfl, rfl, rfl⟩

/-- The spec's description of one hidden block: 32 dense units, a ReLU
activation (inline or as a separate activation layer), batch normalization,
and dropout 0.2. -/
def hiddenBlockSpec (b : List Layer) : Prop :=
  (∃ a, Layer.dense 32 a ∈ b)
  ∧ (Layer.dense 32 (some "relu") ∈ b ∨ Layer.activation "relu" ∈ b)
  ∧ Layer.batchNormalization ∈ b
  ∧ Layer.dropout (1 / 5) ∈ b

/-- Claim C3 counterexample: the built classifier's layer stack admits no
decomposition into 3 hidden blocks each containing batch normalization
(followed by the single sigmoid output unit), because the stack contains
only 2 batch-normalization layers — the first hidden block has none. -/
theorem model_not_three_batchnorm_blocks :
    ¬ ∃ b1 b2 b3 : List Layer,
        buildModel.layers = b1 ++ (b2 ++ (b3 ++ [Layer.dense 1 (some "sigmoid")]))
        ∧ hiddenBlockSpec b1 ∧ hiddenBlockSpec b2 ∧ hiddenBlockSpec b3 := by
  rintro ⟨b1, b2, b3, heq, h1, h2, h3⟩
  have hcnt : buildModel.layers.count Layer.batchNormalization = 2 := by decide
  rw [heq, List.count_append, List.count_append, List.count_append] at hcnt
  have c1 : 0 < b1.count Layer.batchNormalization :=
    List.count_pos_iff.mpr h1.2.2.1
  have c2 : 0 < b2.count Layer.batchNormalization :=
    List.count_pos_iff.mpr h2.2.2.1
  have c3 : 0 < b3.count Layer.batchNormalization :=
    List.count_pos_iff.mpr h3.2.2.1
  omega

/-- Claim C3 (amended): the classifier is a feed-forward stack of 3 hidden
blocks of 32 units with ReLU and dropout 0.2, where the second and third
blocks additionally apply batch normalization but the first block applies
none, followed by a single sigmoid output unit; it is compiled with binary
cross-entropy loss (adam optimizer) and trained for exactly 2 epochs. -/
theorem model_architecture (sq : ℚ → ℚ) (tc vc : List (List ℚ)) :
    (train_model sq tc vc).model = buildModel
    ∧ buildModel.layers =
        [Layer.dense 32 (some "relu"), Layer.dropout (1 / 5)]
          ++ [Layer.dense 32 none, Layer.batchNormalization,
              Layer.activation "relu", Layer.dropout (1 / 5)]
          ++ [Layer.dense 32 none, Layer.batchNormalization,
              Layer.activation "relu", Layer.dropout (1 / 5)]
          ++ [Layer.dense 1 (some "sigmoid")]
    ∧ Layer.batchNormalization ∉
        [Layer.dense 32 (some "relu"), Layer.dropout (1 / 5)]
    ∧ buildModel.loss = some "binary_crossentropy"
    ∧ buildModel.optimizer = some "adam"
    ∧ (train_model sq tc vc).epochs = 2 :=
  ⟨rfl, rfl, by simp, rfl, rfl, rfl⟩

/-- Claim C5: the trainer's feature matrices are exactly columns
{1, 2, 4, 5, 6} of the input rows and its label vectors exactly column {7},
for both the training file and the validation file, with the i-th selected
row coming from the i-th source row (row alignment). -/
theorem feature_label_selection (sq : ℚ → ℚ) (tc vc : List (List ℚ))
    (htc : ∀ row ∈ tc, row.length = 8) (hvc : ∀ row ∈ vc, row.length = 8) :
    (train_model sq tc vc).X_train =
      tc.map (fun row =>
        [row.getD 1 0, row.getD 2 0, row.getD 4 0, row.getD 5 0, row.getD 6 0])
    ∧ (train_model sq tc vc).y_train = tc.map (fun row => [row.getD 7 0])
    ∧ (train_model sq tc vc).X_val =
      vc.map (fun row =>
        [row.getD 1 0, row.getD 2 0, row.getD 4 0, row.getD 5 0, row.getD 6 0])
    ∧ (train_model sq tc vc).y_val = vc.map (fun row => [row.getD 7 0])
    ∧ (train_model sq tc vc).X_train.length = tc.length
    ∧ (train_model sq tc vc).y_train.length = tc.length
    ∧ (train_model sq tc vc).X_val.length = vc.length
    ∧ (train_model sq tc vc).y_val.length = vc.length := by
  refine ⟨rfl, rfl, rfl, rfl, ?_, ?_, ?_, ?_⟩ <;> simp [train_model]

/-- Sample training table with the 8-column schema, for witnesses. -/
def tcSample : List (List ℚ) :=
  [[0, 1, 2, 3, 4, 5, 6, 0], [10, 11, 12, 13, 14, 15, 16, 1],
   [20, 21, 22, 23, 24, 25, 26, 1]]

/-- Sample validation table with the 8-column schema, for witnesses. -/
def vcSample : List (List ℚ) :=
  [[30, 31, 32, 33, 34, 35, 36, 0]]

/-- Witness for the C5 theorem at concrete 8-column tables. -/
theorem feature_label_selection_witness :
    ((∀ row ∈ tcSample, row.length = 8) ∧ (∀ row ∈ vcSample, row.length = 8))
    ∧ ((train_model (fun q => q) tcSample vcSample).X_train =
        tcSample.map (fun row =>
          [row.getD 1 0, row.getD 2 0, row.getD 4 0, row.getD 5 0, row.getD 6 0])
      ∧ (train_model (fun q => q) tcSample vcSample).y_train =
          tcSample.map (fun row => [row.getD 7 0])
      ∧ (train_model (fun q => q) tcSample vcSample).X_val =
          vcSample.map (fun row =>
            [row.getD 1 0, row.getD 2 0, row.getD 4 0, row.getD 5 0, row.getD 6 0])
      ∧ (train_model (fun q => q) tcSample vcSample).y_val =
          vcSample.map (fun row => [row.getD 7 0])
      ∧ (train_model (fun q => q) tcSample vcSample).X_train.length = tcSample.length
      ∧ (train_model (fun q => q) tcSample vcSample).y_train.length = tcSample.length
      ∧ (train_model (fun q => q) tcSample vcSample).X_val.length = vcSample.length
      ∧ (train_model (fun q => q) tcSample vcSample).y_val.length = vcSample.length) :=
  ⟨⟨by decide, by decide⟩,
   feature_label_selection (fun q => q) tcSample vcSample (by decide) (by decide)⟩

/-- Flattening a list of produced singletons is mapping the producer. -/
lemma flatten_map_singleton (f : List ℚ → ℚ) (l : List (List ℚ)) :
    (l.map fun r => [f r]).flatten = l.map f := by
  induction l with
  | nil => rfl
  | cons a t ih => simp [ih]

/-- Membership in `npUnique` is membership in the original list. -/
lemma mem_npUnique (y : List ℚ) (c : ℚ) : c ∈ npUnique y ↔ c ∈ y := by
  unfold npUnique
  rw [(List.perm_insertionSort (fun a b => a ≤ b) y.dedup).mem_iff]
  exact List.mem_dedup

/-- A nonempty label list has a nonempty class list. -/
lemma npUnique_ne_nil (y : List ℚ) (hy : y ≠ []) : npUnique y ≠ [] := by
  obtain ⟨a, ha⟩ := List.exists_mem_of_ne_nil y hy
  intro h
  have hmem := (mem_npUnique y a).mpr ha
  rw [h] at hmem
  exact List.not_mem_nil a hmem

/-- The balanced-weighting invariant for the `'balanced'` class-weight rule:
over the distinct classes of a nonempty label list, the weighted class
counts sum to the total sample count. -/
lemma balanced_sum (y : List ℚ) (hy : y ≠ []) :
    ((npUnique y).map fun c =>
      ((y.length : ℚ) / ((npUnique y).length * (y.count c : ℚ))) * (y.count c : ℚ)).sum
    = (y.length : ℚ) := by
  have hk : (npUnique y).length ≠ 0 := fun h =>
    npUnique_ne_nil y hy (List.length_eq_zero.mp h)
  have hkq : ((npUnique y).length : ℚ) ≠ 0 := Nat.cast_ne_zero.mpr hk
  have hmap : ((npUnique y).map fun c =>
      ((y.length : ℚ) / ((npUnique y).length * (y.count c : ℚ))) * (y.count c : ℚ))
      = (npUnique y).map fun _ => (y.length : ℚ) / ((npUnique y).length : ℚ) := by
    apply List.map_congr_left
    intro c hc
    have hcy : c ∈ y := (mem_npUnique y c).mp hc
    have hcnt : ((y.count c : ℕ) : ℚ) ≠ 0 :=
      Nat.cast_ne_zero.mpr (Nat.pos_iff_ne_zero.mp (List.count_pos_iff.mpr hcy))
    rw [div_mul_eq_mul_div, mul_div_mul_right _ _ hcnt]
  rw [hmap, List.map_const', List.sum_replicate, nsmul_eq_mul, mul_div_assoc',
    mul_div_cancel_left₀ _ hkq]

/-- The trainer's ravelled training label vector
(`y_train.values.ravel()`). -/
def trainLabels (sq : ℚ → ℚ) (tc vc : List (List ℚ)) : List ℚ :=
  (train_model sq tc vc).y_train.flatten

/-- Claim C4: the per-class weights the trainer computes follow the balanced
rule — the weight of class `c` is `n_samples / (n_classes * count c)` over
the training labels — and therefore the weighted class counts sum to the
total number of training samples. -/
theorem class_weights_balanced (sq : ℚ → ℚ) (tc vc : List (List ℚ))
    (h : tc ≠ []) :
    (train_model sq tc vc).class_weights =
      (npUnique (trainLabels sq tc vc)).map (fun c =>
        ((trainLabels sq tc vc).length : ℚ) /
          ((npUnique (trainLabels sq tc vc)).length *
            ((trainLabels sq tc vc).count c : ℚ)))
    ∧ ((npUnique (trainLabels sq tc vc)).map fun c =>
        (((trainLabels sq tc vc).length : ℚ) /
          ((npUnique (trainLabels sq tc vc)).length *
            ((trainLabels sq tc vc).count c : ℚ)))
          * ((trainLabels sq tc vc).count c : ℚ)).sum
      = ((trainLabels sq tc vc).length : ℚ) := by
  have hlab : trainLabels sq tc vc = tc.map (fun r => r.getD 7 0) :=
    flatten_map_singleton (fun r => r.getD 7 0) tc
  constructor
  · rfl
  · apply balanced_sum
    rw [hlab]
    intro hnil
    exact h (List.map_eq_nil_iff.mp hnil)

/-- Witness for the C4 theorem at a concrete training table with labels
0, 1, 1 (so classes {0, 1} with counts 1 and 2 among 3 samples). -/
theorem class_weights_balanced_witness :
    tcSample ≠ []
    ∧ ((train_model (fun q => q) tcSample vcSample).class_weights =
        (npUnique (trainLabels (fun q => q) tcSample vcSample)).map (fun c =>
          ((trainLabels (fun q => q) tcSample vcSample).length : ℚ) /
            ((npUnique (trainLabels (fun q => q) tcSample vcSample)).length *
              ((trainLabels (fun q => q) tcSample vcSample).count c : ℚ)))
      ∧ ((npUnique (trainLabels (fun q => q) tcSample vcSample)).map fun c =>
          (((trainLabels (fun q => q) tcSample vcSample).length : ℚ) /
            ((npUnique (trainLabels (fun q => q) tcSample vcSample)).length *
              ((trainLabels (fun q => q) tcSample vcSample).count c : ℚ)))
            * ((trainLabels (fun q => q) tcSample vcSample).count c : ℚ)).sum
        = ((trainLabels (fun q => q) tcSample vcSample).length : ℚ)) :=
  ⟨by decide, class_weights_balanced (fun q => q) tcSample vcSample (by decide)⟩

end FraudDetection
